import Mathlib

/-!
Verification of the Rust FFI-to-C demo program.

The Rust side (`src/main.rs`) declares an external C function
`multiply(a: c_int, b: c_int) -> c_int`, prints a banner, announces the
call, invokes `multiply(5000, 5)` inside an `unsafe` block, and prints the
result.  The C implementation of `multiply` is not part of the sources
here; per the specification it computes `a * b` over 32-bit signed
integers with two's-complement wraparound on overflow.
-/

namespace RustFfiToC

/-- Lower bound of the 32-bit signed integer range (`c_int`). -/
def int32Min : Int := -2147483648

/-- Upper bound of the 32-bit signed integer range (`c_int`). -/
def int32Max : Int := 2147483647

/-- The integer `x` is representable as a 32-bit signed integer. -/
def isInt32 (x : Int) : Prop := int32Min ≤ x ∧ x ≤ int32Max

instance (x : Int) : Decidable (isInt32 x) :=
  inferInstanceAs (Decidable (_ ∧ _))

/-- Two's-complement wraparound: truncation of `x` modulo `2^32`,
reinterpreted as a signed 32-bit value. -/
def wrap32 (x : Int) : Int := (x + 2147483648) % 4294967296 - 2147483648

/-- Modelled from the spec: the native C `multiply` function is absent
from the sources (only its `extern "C"` declaration and its caller are
present in `src/main.rs`).  The spec describes it as a compiled function
of signature `(int32, int32) -> int32` implementing `a * b` with no side
effects, whose overflow behavior is two's-complement wraparound. -/
def multiply (a b : Int) : Int := wrap32 (a * b)

/-- Observable events of an execution of the Rust program: a line printed
to standard output, or a crossing of the FFI boundary with both arguments
and the returned value. -/
inductive Event where
  | printLn (s : String)
  | ffiCall (a b r : Int)
deriving DecidableEq

/-- Embedding of `fn main()` from `src/main.rs`, parameterized by the
foreign function the external symbol `multiply` resolves to: print the
banner, print the announcement, call `multiply(5000, 5)`, print the
result line. -/
def mainTrace (mul : Int → Int → Int) : List Event :=
  let result := mul 5000 5
  [ Event.printLn "[Rust] Hello from Rust! 🦀",
    Event.printLn "[Rust] Calling function in C..",
    Event.ffiCall 5000 5 result,
    Event.printLn ("[Rust] Result: " ++ toString result) ]

/-- The trace of the program as shipped: `main` linked against the native
multiplier. -/
def rustMain : List Event := mainTrace multiply

/-- The lines written to standard output during a trace. -/
def stdoutLines (t : List Event) : List String :=
  t.filterMap fun e =>
    match e with
    | Event.printLn s => some s
    | _ => none

/-- The FFI invocations (argument pairs) performed during a trace. -/
def ffiCalls (t : List Event) : List (Int × Int) :=
  t.filterMap fun e =>
    match e with
    | Event.ffiCall a b _ => some (a, b)
    | _ => none

/-- Exit code of the program: `main` returns unit and has no other exit
path, so the process terminates with code 0. -/
def rustExitCode : Int := 0

/-- The program observed from outside the process: given command-line
arguments, standard input and environment, it yields its standard-output
lines and exit code.  `fn main()` reads none of the three. -/
def rustMainWith (_args : List String) (_stdin : List String)
    (_env : List (String × String)) : List String × Int :=
  (stdoutLines rustMain, rustExitCode)

/-- C1: for every pair of 32-bit signed integers `a`, `b` whose true
mathematical product fits in the 32-bit signed range, the cross-boundary
call to `multiply` returns exactly `a * b`. -/
theorem multiply_exact (a b : Int) (ha : isInt32 a) (hb : isInt32 b)
    (hfit : isInt32 (a * b)) : multiply a b = a * b := by
  unfold multiply wrap32
  unfold isInt32 int32Min int32Max at hfit
  omega

/-- Witness for C1 at `a = 5000`, `b = 5`. -/
theorem multiply_exact_witness :
    isInt32 5000 ∧ isInt32 5 ∧ isInt32 (5000 * 5) ∧
      multiply 5000 5 = 5000 * 5 :=
  ⟨by decide, by decide, by decide,
    multiply_exact 5000 5 (by decide) (by decide) (by decide)⟩

/-- C2, counterexample: the full standard output is not just the banner
line followed by the line `Result: 25000` — there is an intermediate
announcement line, and the result line carries a `[Rust] ` prefix. -/
theorem main_output_ne_two_claimed_lines :
    stdoutLines rustMain ≠ ["[Rust] Hello from Rust! 🦀", "Result: 25000"] := by
  decide

/-- C2 (amended): the call returns 25000 and the program's full standard
output is exactly the banner line, the line `[Rust] Calling function in
C..`, and the line `[Rust] Result: 25000`. -/
theorem main_output_exact :
    multiply 5000 5 = 25000 ∧
      stdoutLines rustMain =
        ["[Rust] Hello from Rust! 🦀", "[Rust] Calling function in C..",
         "[Rust] Result: 25000"] := by
  decide

/-- C3, counterexample: the program does not write exactly two lines to
standard output (it writes three). -/
theorem main_output_length_ne_two : (stdoutLines rustMain).length ≠ 2 := by
  decide

/-- C3 (amended): the program terminates with exit code 0 and writes
exactly three lines to standard output: two announcement string
constants, then `[Rust] Result: <value>` where `<value>` is the decimal
signed-integer result of the multiply call; no other exit paths exist. -/
theorem main_three_lines_exit_zero :
    rustExitCode = 0 ∧
      stdoutLines rustMain =
        ["[Rust] Hello from Rust! 🦀", "[Rust] Calling function in C..",
         "[Rust] Result: " ++ toString (multiply 5000 5)] ∧
      (stdoutLines rustMain).length = 3 := by
  refine ⟨rfl, rfl, rfl⟩

/-- C4: for every pair of 32-bit signed integers whose true product lies
outside the 32-bit signed range, the multiply call returns the
two's-complement wraparound of the true product — a value congruent to
`a * b` modulo `2^32` that lies back in the 32-bit signed range; in
particular `a = 100000`, `b = 100000` returns 1410065408. -/
theorem multiply_overflow_wraps (a b : Int) (ha : isInt32 a) (hb : isInt32 b)
    (hover : a * b > int32Max ∨ a * b < int32Min) :
    multiply a b % 4294967296 = (a * b) % 4294967296 ∧
      isInt32 (multiply a b) ∧
      multiply 100000 100000 = 1410065408 := by
  refine ⟨?_, ?_, by decide⟩
  · unfold multiply wrap32
    omega
  · unfold multiply wrap32 isInt32 int32Min int32Max
    omega

/-- Witness for C4 at `a = 100000`, `b = 100000`. -/
theorem multiply_overflow_wraps_witness :
    isInt32 100000 ∧ (100000 * 100000 : Int) > int32Max ∧
      multiply 100000 100000 = 1410065408 :=
  ⟨by decide, by decide,
    (multiply_overflow_wraps 100000 100000 (by decide) (by decide)
      (Or.inl (by decide))).2.2⟩

/-- C5: for `a = 0` and every 32-bit signed integer `b`, the multiply
call returns 0. -/
theorem multiply_zero_left (b : Int) (hb : isInt32 b) : multiply 0 b = 0 := by
  unfold multiply wrap32
  rw [zero_mul]
  decide

/-- Witness for C5 at `b = 2147483647`. -/
theorem multiply_zero_left_witness :
    isInt32 2147483647 ∧ multiply 0 2147483647 = 0 :=
  ⟨by decide, multiply_zero_left 2147483647 (by decide)⟩

/-- C6: the multiply call is deterministic (pure): any two calls with
identical arguments yield identical results. -/
theorem multiply_deterministic (a b a' b' : Int) (ha : a = a') (hb : b = b') :
    multiply a b = multiply a' b' := by
  rw [ha, hb]

/-- Witness for C6 at `a = 5000`, `b = 5`. -/
theorem multiply_deterministic_witness :
    multiply 5000 5 = multiply 5000 5 :=
  multiply_deterministic 5000 5 5000 5 rfl rfl

/-- C7: the cross-boundary call has no runtime error channel: for every
pair of 32-bit signed integer inputs, `multiply` totally returns a plain
32-bit signed integer (no error value), and the program's only exit path
is normal completion with code 0. -/
theorem multiply_total_no_error (a b : Int) (ha : isInt32 a) (hb : isInt32 b) :
    isInt32 (multiply a b) ∧ rustExitCode = 0 := by
  refine ⟨?_, rfl⟩
  unfold multiply wrap32 isInt32 int32Min int32Max
  omega

/-- Witness for C7 at `a = -2147483648`, `b = 2147483647`. -/
theorem multiply_total_no_error_witness :
    isInt32 (-2147483648) ∧ isInt32 2147483647 ∧
      isInt32 (multiply (-2147483648) 2147483647) ∧ rustExitCode = 0 :=
  ⟨by decide, by decide,
    (multiply_total_no_error (-2147483648) 2147483647 (by decide) (by decide)).1,
    (multiply_total_no_error (-2147483648) 2147483647 (by decide) (by decide)).2⟩

/-- C8: in every execution the program performs exactly one FFI call,
and the arguments of that call are the fixed literals 5000 and 5. -/
theorem main_single_call : ffiCalls rustMain = [(5000, 5)] := by
  decide

/-- C9: every output line preceding the result line is a fixed string
constant independent of multiply's return value: for any two functions
the external symbol could resolve to, the standard output has the same
number of lines and differs at most in the final result line. -/
theorem main_prefix_lines_fixed (mul₁ mul₂ : Int → Int → Int) :
    (stdoutLines (mainTrace mul₁)).dropLast
        = (stdoutLines (mainTrace mul₂)).dropLast ∧
      (stdoutLines (mainTrace mul₁)).length
        = (stdoutLines (mainTrace mul₂)).length :=
  ⟨rfl, rfl⟩

/-- C10: the program reads no input: its standard output and exit code
are identical across any two runs, regardless of command-line arguments,
standard input, or environment. -/
theorem main_ignores_environment (args₁ args₂ stdin₁ stdin₂ : List String)
    (env₁ env₂ : List (String × String)) :
    rustMainWith args₁ stdin₁ env₁ = rustMainWith args₂ stdin₂ env₂ :=
  rfl

end RustFfiToC
